import Mathlib

/-!
Verification development for src/task3.js: a dice game whose core is a
commit-reveal fair number protocol (class FairNumberProtocol) built on a
rejection-sampling secure random number generator (class RandomGenerator)
and a keyed digest (HMAC), plus a Dice class and a command line dice
configuration parser (class DiceConfigParser).

Modelling conventions (shallow embedding of the JavaScript source):
- JavaScript numbers that can be NaN are modelled by `JsNum` (an `Int`
  together with an explicit NaN marker).  In particular
  `parseInt("", 16)` is NaN, and indexing an array at NaN yields
  `undefined`.
- The entropy source `crypto.randomBytes(w)` followed by
  `parseInt(buf.toString("hex"), 16)` is modelled as an explicit stream
  `draws : Nat -> Nat` of already-parsed candidate values; the do-while
  rejection loop takes explicit fuel and reports divergence when the
  fuel runs out.
- Code that can throw returns an explicit outcome type
  (`SampleOutcome`, `CtorOutcome`, `RollOutcome`, `Except`).
- The unkeyed internals of sha3-256 are opaque to the program, so the
  digest primitive is a parameter `sha3 : String -> String -> String`
  applied to the key and the accumulated message bytes.
-/

namespace Task3

/-- A JavaScript number that is either NaN or an integer.  All numbers
reaching the modelled code paths are integral, so the non-NaN case
carries an `Int`. -/
inductive JsNum where
  | nan : JsNum
  | val : Int → JsNum
deriving DecidableEq

/-- JavaScript `message.toString()` for a number: `"NaN"` for NaN,
decimal rendering otherwise (task3.js line 39). -/
def JsNum.toStr : JsNum → String
  | .nan => "NaN"
  | .val n => toString n

/-- JavaScript remainder `a % b`: NaN when `b = 0`, otherwise the
truncated remainder (sign of the dividend), which is `Int.tmod`. -/
def jsRem (a b : Int) : JsNum :=
  if b = 0 then .nan else .val (Int.tmod a b)

/-- The value of `Math.ceil(Math.log2(n) / 8)` for `n ≥ 1`
(task3.js line 28): the least `w` with `n ≤ 256 ^ w`, i.e. the minimal
number of random bytes whose value space covers `[0, n)`.  Computed by
searching `w = 0, 1, ..., n`; the search cannot fail because
`n ≤ 2 ^ n ≤ 256 ^ n`. -/
def byteSizeNat (n : Nat) : Nat :=
  (((List.range (n + 1)).find? fun w => decide (n ≤ 256 ^ w)).getD 0)

/-- The byte size computation on a JavaScript number `range`
(task3.js line 28).  For `range ≤ 0`, `Math.log2` returns NaN or
-Infinity, so `Math.ceil` is not a valid byte count and the subsequent
`crypto.randomBytes` call throws; this is modelled as `none`. -/
def jsByteSize (range : Int) : Option Nat :=
  if 1 ≤ range then some (byteSizeNat range.toNat) else none

/-- Outcome of `RandomGenerator.generateSecureRandomNumber`
(task3.js lines 27-34): an exception from `crypto.randomBytes`
(`thrown`), fuel exhaustion of the rejection loop (`diverged`), or a
returned JavaScript number (`ret`). -/
inductive SampleOutcome where
  | thrown : SampleOutcome
  | diverged : SampleOutcome
  | ret : JsNum → SampleOutcome
deriving DecidableEq

/-- The do-while rejection loop of task3.js lines 30-32 for a positive
byte size: draw candidate `draws i`, return it if it is below `range`,
otherwise redraw.  `fuel` bounds the number of draws; running out of
fuel models an infinite rejection loop. -/
def rejectLoop (range : Int) (draws : Nat → Nat) : Nat → Nat → SampleOutcome
  | _, 0 => .diverged
  | i, fuel + 1 =>
    if (draws i : Int) < range then .ret (.val (draws i))
    else rejectLoop range draws (i + 1) fuel

/-- `RandomGenerator.generateSecureRandomNumber(range)`
(task3.js lines 27-34).  With byte size 0 (which happens exactly at
`range = 1`), `crypto.randomBytes(0).toString("hex")` is the empty
string and `parseInt("", 16)` is NaN; `NaN >= range` is false, so the
loop exits at once and the function returns NaN. -/
def generateSecureRandomNumber (range : Int) (draws : Nat → Nat) (fuel : Nat) :
    SampleOutcome :=
  match jsByteSize range with
  | none => .thrown
  | some 0 => .ret .nan
  | some (_ + 1) => rejectLoop range draws 0 fuel

/-- State of `crypto.createHmac("sha3-256", key)` after some `update`
calls: the key and the accumulated message bytes. -/
structure HmacBuilder where
  key : String
  data : String
deriving DecidableEq

/-- `crypto.createHmac("sha3-256", key)` (task3.js line 38). -/
def createHmac (key : String) : HmacBuilder :=
  { key := key, data := "" }

/-- `.update(s)` on an HMAC builder (task3.js line 39). -/
def HmacBuilder.update (h : HmacBuilder) (s : String) : HmacBuilder :=
  { key := h.key, data := h.data ++ s }

/-- `.digest("hex")` (task3.js line 40): apply the keyed digest
function to the key and the accumulated data. -/
def HmacBuilder.digestHex (h : HmacBuilder) (sha3 : String → String → String) : String :=
  sha3 h.key h.data

/-- `RandomGenerator.generateHMAC(key, message)` (task3.js lines
36-41): `createHmac("sha3-256", key).update(message.toString())
.digest("hex")`. -/
def generateHMAC (sha3 : String → String → String) (key : String) (message : JsNum) :
    String :=
  ((createHmac key).update message.toStr).digestHex sha3

/-- State of a `FairNumberProtocol` instance (task3.js lines 44-53):
the four fields assigned by the constructor. -/
structure FairNumberProtocol where
  range : Int
  secretKey : String
  computerNumber : JsNum
  hmac : String
deriving DecidableEq

/-- Outcome of `new FairNumberProtocol(range)`: the constructor throws
or diverges iff `generateSecureRandomNumber(range)` does. -/
inductive CtorOutcome where
  | thrown : CtorOutcome
  | diverged : CtorOutcome
  | mk : FairNumberProtocol → CtorOutcome
deriving DecidableEq

/-- The `FairNumberProtocol` constructor (task3.js lines 45-53).  The
fresh secret key `crypto.randomBytes(32).toString("hex")` of
`generateSecureRandomKey` (line 24) is modelled as the entropy-supplied
parameter `key`; `computerNumber` is drawn by
`generateSecureRandomNumber(range)` and `hmac` is
`generateHMAC(secretKey, computerNumber)`. -/
def FairNumberProtocol.make (sha3 : String → String → String) (range : Int)
    (key : String) (draws : Nat → Nat) (fuel : Nat) : CtorOutcome :=
  match generateSecureRandomNumber range draws fuel with
  | .thrown => .thrown
  | .diverged => .diverged
  | .ret n => .mk { range := range, secretKey := key, computerNumber := n,
                    hmac := generateHMAC sha3 key n }

/-- `getHMAC()` (task3.js lines 55-57).  Methods are modelled as state
transformers returning the value together with the post-state. -/
def FairNumberProtocol.getHMAC (p : FairNumberProtocol) : String × FairNumberProtocol :=
  (p.hmac, p)

/-- `revealKey()` (task3.js lines 59-61). -/
def FairNumberProtocol.revealKey (p : FairNumberProtocol) : String × FairNumberProtocol :=
  (p.secretKey, p)

/-- `getComputerNumber()` (task3.js lines 63-65). -/
def FairNumberProtocol.getComputerNumber (p : FairNumberProtocol) :
    JsNum × FairNumberProtocol :=
  (p.computerNumber, p)

/-- `calculateResult(userNumber)` (task3.js lines 67-69):
`(this.computerNumber + userNumber) % this.range` with JavaScript
remainder semantics; NaN propagates through `+` and `%`. -/
def FairNumberProtocol.calculateResult (p : FairNumberProtocol) (userNumber : Int) :
    JsNum × FairNumberProtocol :=
  match p.computerNumber with
  | .nan => (.nan, p)
  | .val c => (jsRem (c + userNumber) p.range, p)

/-- The four public operations of a `FairNumberProtocol` instance. -/
inductive ProtoOp where
  | getHMAC : ProtoOp
  | revealKey : ProtoOp
  | getComputerNumber : ProtoOp
  | calcResult : Int → ProtoOp
deriving DecidableEq

/-- A value returned by a protocol operation. -/
inductive ProtoVal where
  | str : String → ProtoVal
  | num : JsNum → ProtoVal
deriving DecidableEq

/-- The error taxonomy the specification assigns to out-of-order
protocol operations. -/
inductive ProtoErr where
  | protocolStateError : ProtoErr
deriving DecidableEq

/-- One protocol method call, with the possibility of raising an error
made explicit in the type.  The method bodies (task3.js lines 55-69)
are plain field reads plus arithmetic and contain no throw and no
assignment. -/
def FairNumberProtocol.step (p : FairNumberProtocol) :
    ProtoOp → Except ProtoErr (ProtoVal × FairNumberProtocol)
  | .getHMAC => .ok (.str (p.getHMAC).1, (p.getHMAC).2)
  | .revealKey => .ok (.str (p.revealKey).1, (p.revealKey).2)
  | .getComputerNumber => .ok (.num (p.getComputerNumber).1, (p.getComputerNumber).2)
  | .calcResult u => .ok (.num (p.calculateResult u).1, (p.calculateResult u).2)

/-- Run a sequence of protocol method calls in order, stopping at the
first raised error. -/
def runOps : FairNumberProtocol → List ProtoOp → Except ProtoErr FairNumberProtocol
  | p, [] => .ok p
  | p, op :: rest =>
    match p.step op with
    | .error e => .error e
    | .ok (_, q) => runOps q rest

/-- State of a `Dice` instance (task3.js lines 72-75). -/
structure Dice where
  values : List Int
deriving DecidableEq

/-- The `Dice` constructor (task3.js lines 73-75).  Its body is the
single assignment `this.values = values`: it performs no validation
and cannot throw, so it always returns `ok`. -/
def Dice.make (values : List Int) : Except String Dice :=
  .ok { values := values }

/-- Outcome of `Dice.roll()`: an exception propagated from the
sampler, loop divergence, the JavaScript `undefined` (from indexing
the array at NaN or out of bounds), or a face value. -/
inductive RollOutcome where
  | thrown : RollOutcome
  | diverged : RollOutcome
  | undefined : RollOutcome
  | face : Int → RollOutcome
deriving DecidableEq

/-- `Dice.roll()` (task3.js lines 77-82):
`this.values[generateSecureRandomNumber(this.values.length)]`.
Indexing at NaN or outside `[0, length)` yields `undefined`. -/
def Dice.roll (d : Dice) (draws : Nat → Nat) (fuel : Nat) : RollOutcome :=
  match generateSecureRandomNumber (d.values.length : Int) draws fuel with
  | .thrown => .thrown
  | .diverged => .diverged
  | .ret .nan => .undefined
  | .ret (.val i) =>
    if h : 0 ≤ i ∧ i.toNat < d.values.length then .face (d.values.get ⟨i.toNat, h.2⟩)
    else .undefined

/-- JavaScript `s.split(",")` on the character list of `s`: split at
every comma, keeping empty pieces. -/
def splitCommaChars : List Char → List (List Char)
  | [] => [[]]
  | c :: rest =>
    match splitCommaChars rest with
    | [] => if c = ',' then [[], []] else [[c]]
    | g :: gs => if c = ',' then [] :: g :: gs else (c :: g) :: gs

/-- JavaScript `arg.split(",")` (task3.js line 11). -/
def jsSplitComma (s : String) : List String :=
  (splitCommaChars s.data).map fun cs => String.mk cs

/-- The body of the `args.map` callback in
`DiceConfigParser.parseDiceConfig` (task3.js lines 10-17): split the
argument at commas, convert each piece with `Number` (modelled by
`toNum`, where `none` is NaN), and throw unless there are exactly 6
pieces, none of them NaN. -/
def parseDiceEntry (toNum : String → Option Int) (arg : String) :
    Except String (List Int) :=
  if ((jsSplitComma arg).map toNum).length = 6 ∧ ((jsSplitComma arg).map toNum).all Option.isSome
  then .ok ((jsSplitComma arg).map toNum).reduceOption
  else .error ("Invalid dice format: " ++ arg ++
    ". Each dice should contain exactly 6 integers.")

/-- `args.map(...)` over the dice arguments (task3.js line 10),
propagating the first thrown error. -/
def parseEntries (toNum : String → Option Int) :
    List String → Except String (List (List Int))
  | [] => .ok []
  | arg :: rest =>
    match parseDiceEntry toNum arg with
    | .error e => .error e
    | .ok ds =>
      match parseEntries toNum rest with
      | .error e => .error e
      | .ok dss => .ok (ds :: dss)

/-- `DiceConfigParser.parseDiceConfig(args)` (task3.js lines 4-19). -/
def parseDiceConfig (toNum : String → Option Int) (args : List String) :
    Except String (List (List Int)) :=
  if args.length < 3 then
    .error "Invalid number of dice. Provide at least 3 sets of 6 integers."
  else parseEntries toNum args

/-- State of a `GameFlow` instance (task3.js lines 85-88). -/
structure GameFlow where
  diceSet : List Dice
deriving DecidableEq

/-- The `GameFlow` constructor (task3.js lines 86-88):
`diceConfigurations.map((config) => new Dice(config))`.  The `Dice`
constructor cannot throw (see `Dice.make`), so the map is total. -/
def GameFlow.make (diceConfigurations : List (List Int)) : GameFlow :=
  { diceSet := diceConfigurations.map fun config => { values := config } }

/-- A concrete keyed digest standing in for sha3-256 in concrete
evaluations (the program treats the digest as an opaque function). -/
def shaZero : String → String → String := fun _ _ => ""

/-- The concrete protocol instance produced by
`new FairNumberProtocol(2)` when the key draw yields `"k"` and the
first candidate draw is `0`: range 2, committed value 0, digest
`shaZero "k" "0" = ""`. -/
def proto0 : FairNumberProtocol :=
  { range := 2, secretKey := "k", computerNumber := .val 0, hmac := "" }

theorem calculateResult_state (p : FairNumberProtocol) (u : Int) :
    (p.calculateResult u).2 = p := by
  cases hc : p.computerNumber <;> simp [FairNumberProtocol.calculateResult, hc]

/-- C1: the claim says `sample(1)` always returns `0`, but in the code
the byte width at range 1 is 0, so zero random bytes are drawn,
`parseInt("", 16)` is NaN, the loop guard `NaN >= 1` is false, and
`generateSecureRandomNumber(1)` returns NaN for every entropy stream
and every fuel bound. -/
theorem sample_one_returns_nan (draws : Nat → Nat) (fuel : Nat) :
    generateSecureRandomNumber 1 draws fuel = .ret .nan := rfl

/-- C4: for every range less or equal 0 the sampler raises before
consuming any entropy: the outcome is `thrown` for every entropy
stream and every fuel bound, and no value is returned. -/
theorem sample_nonpositive_throws (range : Int) (h : range ≤ 0)
    (draws : Nat → Nat) (fuel : Nat) :
    generateSecureRandomNumber range draws fuel = .thrown := by
  unfold generateSecureRandomNumber jsByteSize
  rw [if_neg (by omega)]

/-- C4 witness: the sampler at range 0 throws. -/
theorem sample_nonpositive_throws_witness :
    (0 : Int) ≤ 0 ∧ generateSecureRandomNumber 0 (fun _ => 0) 0 = .thrown :=
  ⟨le_refl 0, sample_nonpositive_throws 0 (le_refl 0) (fun _ => 0) 0⟩

/-- C3 counterexample: at range 3 the byte width is 1, the candidate
space has 256 values, and `256 < 2 * 3` is false, refuting the claimed
per-draw acceptance probability above one half. -/
theorem candidate_space_not_small_at_three :
    byteSizeNat 3 = 1 ∧ ¬ (256 ^ byteSizeNat 3 < 2 * 3) := by
  constructor <;> decide

/-- C3 amended: for every range `n ≥ 1` the candidate space
`2 ^ (8 * w)` with `w = ceil(log2 n / 8)` covers the range,
`n ≤ 256 ^ w`, so every value of `[0, n)` is reachable and each draw
can be accepted; but the bound `256 ^ w < 2 * n` of the claim fails in
general, so the per-draw acceptance probability is not above one
half for every range. -/
theorem candidate_space_covers_range (n : Nat) (h : 1 ≤ n) :
    n ≤ 256 ^ byteSizeNat n := by
  have _n1 := h
  unfold byteSizeNat
  cases hf : (List.range (n + 1)).find? fun w => decide (n ≤ 256 ^ w) with
  | none =>
    exfalso
    have hn : n ≤ 256 ^ n :=
      le_trans (le_of_lt (Nat.lt_two_pow n)) (Nat.pow_le_pow_left (by norm_num) n)
    have hnone := List.find?_eq_none.mp hf n (List.mem_range.mpr (Nat.lt_succ_self n))
    simp only [decide_eq_true_eq] at hnone
    exact hnone hn
  | some w =>
    have hp := List.find?_some (p := fun w => decide (n ≤ 256 ^ w)) hf
    simpa using of_decide_eq_true hp

/-- C3 witness: range 3 satisfies the amended coverage bound. -/
theorem candidate_space_covers_range_witness :
    1 ≤ 3 ∧ 3 ≤ 256 ^ byteSizeNat 3 :=
  ⟨by decide, candidate_space_covers_range 3 (by decide)⟩

/-- C5 counterexample: the `Dice` constructor performs no validation,
so constructing a die from the empty face list succeeds instead of
failing with InvalidDieError. -/
theorem dice_empty_construction_succeeds :
    Dice.make [] = Except.ok { values := [] } := rfl

/-- C5 amended: constructing a die from the empty face list succeeds
(the constructor performs no validation); the empty-faces failure
surfaces only when `roll()` is called, where the sampler is invoked
with range 0 and throws. -/
theorem dice_empty_roll_throws (draws : Nat → Nat) (fuel : Nat) :
    Dice.make [] = Except.ok { values := [] } ∧
      Dice.roll { values := [] } draws fuel = .thrown :=
  ⟨rfl, rfl⟩

/-- C6: the claim says `roll()` always returns an element of the face
list of a die built from a non-empty face list, but for a single-face
die the sampler is called with range 1 and returns NaN, and indexing
the face array at NaN yields `undefined`, for every entropy stream and
every fuel bound: the configured face 5 is never returned. -/
theorem single_face_roll_undefined (draws : Nat → Nat) (fuel : Nat) :
    Dice.roll { values := [5] } draws fuel = .undefined := rfl

/-- C8: `generateHMAC` is deterministic: two calls with identical keys
and identical messages return identical digests (the digest depends
only on the key and the canonical string rendering of the message; no
entropy or ambient state reaches it). -/
theorem generateHMAC_deterministic (sha3 : String → String → String)
    (key1 key2 : String) (msg1 msg2 : JsNum)
    (hk : key1 = key2) (hm : msg1 = msg2) :
    generateHMAC sha3 key1 msg1 = generateHMAC sha3 key2 msg2 := by
  rw [hk, hm]

/-- C8 witness: two identical commit calls on key `"k"` and value 7
yield the same digest. -/
theorem generateHMAC_deterministic_witness :
    "k" = "k" ∧ JsNum.val 7 = JsNum.val 7 ∧
      generateHMAC shaZero "k" (JsNum.val 7) = generateHMAC shaZero "k" (JsNum.val 7) :=
  ⟨rfl, rfl, generateHMAC_deterministic shaZero "k" "k" (JsNum.val 7) (JsNum.val 7) rfl rfl⟩

/-- C9: every accessor of a constructed protocol instance leaves the
whole state, hence the fields `range`, `secretKey`, `computerNumber`
and `hmac`, unchanged: `getHMAC`, `revealKey`, `getComputerNumber` and
`calculateResult` all return the state they received. -/
theorem accessors_preserve_state (p : FairNumberProtocol) (u : Int) :
    (p.getHMAC).2 = p ∧ (p.revealKey).2 = p ∧ (p.getComputerNumber).2 = p ∧
      (p.calculateResult u).2 = p :=
  ⟨rfl, rfl, rfl, calculateResult_state p u⟩

theorem rejectLoop_ret_val (range : Int) (draws : Nat → Nat) :
    ∀ (fuel i : Nat) (c : Int), rejectLoop range draws i fuel = .ret (.val c) →
      0 ≤ c ∧ c < range := by
  intro fuel
  induction fuel with
  | zero => intro i c hlp; exact absurd hlp (by simp [rejectLoop])
  | succ m ih =>
    intro i c hlp
    unfold rejectLoop at hlp
    split at hlp
    · rename_i hlt
      simp only [SampleOutcome.ret.injEq, JsNum.val.injEq] at hlp
      subst hlp
      exact ⟨by omega, hlt⟩
    · exact ih _ _ hlp

theorem sample_ret_val (range : Int) (draws : Nat → Nat) (fuel : Nat) (c : Int)
    (hs : generateSecureRandomNumber range draws fuel = .ret (.val c)) :
    1 ≤ range ∧ 0 ≤ c ∧ c < range := by
  unfold generateSecureRandomNumber jsByteSize at hs
  by_cases hr : 1 ≤ range
  · rw [if_pos hr] at hs
    refine ⟨hr, ?_⟩
    cases hb : byteSizeNat range.toNat with
    | zero => rw [hb] at hs; simp at hs
    | succ m => rw [hb] at hs; exact rejectLoop_ret_val range draws fuel 0 c hs
  · rw [if_neg hr] at hs; simp at hs

theorem make_mk (sha3 : String → String → String) (range : Int) (key : String)
    (draws : Nat → Nat) (fuel : Nat) (p : FairNumberProtocol)
    (hmk : FairNumberProtocol.make sha3 range key draws fuel = .mk p) :
    generateSecureRandomNumber range draws fuel = .ret p.computerNumber ∧
      p.range = range ∧ p.secretKey = key ∧
      p.hmac = generateHMAC sha3 key p.computerNumber := by
  unfold FairNumberProtocol.make at hmk
  cases hs : generateSecureRandomNumber range draws fuel with
  | thrown => rw [hs] at hmk; exact CtorOutcome.noConfusion hmk
  | diverged => rw [hs] at hmk; exact CtorOutcome.noConfusion hmk
  | ret n =>
    rw [hs] at hmk
    injection hmk with hp
    subst hp
    exact ⟨rfl, rfl, rfl, rfl⟩

/-- C2 amended: for every protocol instance constructed with range `n`
and committed value `c`, and every counterpart value `u ≥ 0`,
`calculateResult(u)` equals `(c + u) mod n`.  For a negative
counterpart value the JavaScript remainder can be negative and differ
from the mathematical mod, so the restriction to `u ≥ 0` is needed
(see the counterexample at `u = -1`). -/
theorem calculateResult_mod (sha3 : String → String → String) (range : Int)
    (key : String) (draws : Nat → Nat) (fuel : Nat) (p : FairNumberProtocol)
    (c u : Int)
    (hmk : FairNumberProtocol.make sha3 range key draws fuel = .mk p)
    (hc : p.computerNumber = .val c) (hu : 0 ≤ u) :
    (p.calculateResult u).1 = .val ((c + u) % range) := by
  obtain ⟨hs, hrange, -, -⟩ := make_mk sha3 range key draws fuel p hmk
  rw [hc] at hs
  obtain ⟨hr1, hc0, -⟩ := sample_ret_val range draws fuel c hs
  simp only [FairNumberProtocol.calculateResult, hc]
  rw [hrange]
  unfold jsRem
  rw [if_neg (by omega : ¬ range = 0)]
  exact congrArg JsNum.val (Int.tmod_eq_emod (by omega) (by omega))

/-- C2 witness: the concrete instance constructed with range 2 and
committed value 0 satisfies the amended statement at counterpart value
1: the result is `(0 + 1) % 2 = 1`. -/
theorem calculateResult_mod_witness :
    FairNumberProtocol.make shaZero 2 "k" (fun _ => 0) 1 = .mk proto0 ∧
      proto0.computerNumber = .val 0 ∧ (0 : Int) ≤ 1 ∧
      (proto0.calculateResult 1).1 = .val (((0 : Int) + 1) % 2) :=
  ⟨rfl, rfl, by decide,
    calculateResult_mod shaZero 2 "k" (fun _ => 0) 1 proto0 0 1 rfl rfl (by decide)⟩

/-- C2 counterexample: on the concrete instance constructed with range
2 and committed value 0, the counterpart value -1 gives
`calculateResult(-1) = -1` (JavaScript truncated remainder), while
`(0 + (-1)) mod 2 = 1`: the claimed equation fails for a negative
counterpart value. -/
theorem calculateResult_neg_counterexample :
    FairNumberProtocol.make shaZero 2 "k" (fun _ => 0) 1 = .mk proto0 ∧
      proto0.computerNumber = .val 0 ∧
      (proto0.calculateResult (-1)).1 = .val (-1) ∧
      ((0 : Int) + (-1)) % 2 = 1 ∧
      (proto0.calculateResult (-1)).1 ≠ .val (((0 : Int) + (-1)) % 2) :=
  ⟨rfl, rfl, by decide, by decide, by decide⟩

/-- C7 counterexample: on a freshly constructed instance, the reveal
accessor is called before the commitment accessor and then the result
is computed; every call succeeds with the state unchanged and no
ProtocolStateError is raised, refuting the claimed out-of-order
failure. -/
theorem out_of_order_ops_no_error :
    FairNumberProtocol.make shaZero 2 "k" (fun _ => 0) 1 = .mk proto0 ∧
      runOps proto0 [ProtoOp.revealKey, ProtoOp.calcResult 0, ProtoOp.getHMAC] =
        .ok proto0 ∧
      runOps proto0 [ProtoOp.calcResult 0] ≠ .error ProtoErr.protocolStateError :=
  ⟨rfl, rfl, fun hcontra => Except.noConfusion hcontra⟩

/-- C7 amended: the commit step runs inside the constructor, so no
instance exists on which it has not run; the four accessors are
unguarded and never raise: every sequence of operations on every
instance succeeds, returns the state unchanged, and in particular
never raises ProtocolStateError. -/
theorem runOps_never_errors (ops : List ProtoOp) (p : FairNumberProtocol) :
    runOps p ops = .ok p := by
  induction ops generalizing p with
  | nil => rfl
  | cons op rest ih =>
    cases op <;>
      simp only [runOps, FairNumberProtocol.step, FairNumberProtocol.getHMAC,
        FairNumberProtocol.revealKey, FairNumberProtocol.getComputerNumber,
        calculateResult_state] <;>
      exact ih p

theorem parseDiceEntry_ok_length (toNum : String → Option Int) (arg : String)
    (ds : List Int) (h : parseDiceEntry toNum arg = .ok ds) : ds.length = 6 := by
  unfold parseDiceEntry at h
  split at h
  · rename_i hcond
    injection h with hds
    subst hds
    have hall : ∀ x ∈ (jsSplitComma arg).map toNum, Option.isSome x := by
      intro x hx
      exact List.all_eq_true.mp hcond.2 x hx
    rw [List.reduceOption_length_eq_iff.mpr hall]
    exact hcond.1
  · exact Except.noConfusion h

theorem parseEntries_ok (toNum : String → Option Int) :
    ∀ (args : List String) (dss : List (List Int)),
      parseEntries toNum args = .ok dss →
      dss.length = args.length ∧ ∀ ds ∈ dss, ds.length = 6 := by
  intro args
  induction args with
  | nil =>
    intro dss h
    injection h with h
    subst h
    exact ⟨rfl, by simp⟩
  | cons arg rest ih =>
    intro dss h
    unfold parseEntries at h
    cases he : parseDiceEntry toNum arg with
    | error e => rw [he] at h; exact Except.noConfusion h
    | ok ds =>
      rw [he] at h
      cases hrest : parseEntries toNum rest with
      | error e => rw [hrest] at h; exact Except.noConfusion h
      | ok dss2 =>
        rw [hrest] at h
        injection h with h
        subst h
        obtain ⟨hlen, hall⟩ := ih dss2 hrest
        refine ⟨by simp [hlen], ?_⟩
        intro ds2 hmem
        rcases List.mem_cons.mp hmem with heq | hmem2
        · subst heq; exact parseDiceEntry_ok_length toNum arg ds2 he
        · exact hall ds2 hmem2

/-- C10: `parseDiceConfig` either throws or returns a configuration
list with at least 3 dice, each of exactly 6 numeric (non-NaN) faces;
consequently every die `GameFlow` constructs from a parsed
configuration has exactly 6 faces. -/
theorem parseDiceConfig_invariant (toNum : String → Option Int)
    (args : List String) (dss : List (List Int))
    (h : parseDiceConfig toNum args = .ok dss) :
    3 ≤ dss.length ∧ (∀ ds ∈ dss, ds.length = 6) ∧
      ∀ d ∈ (GameFlow.make dss).diceSet, d.values.length = 6 := by
  unfold parseDiceConfig at h
  split at h
  · exact Except.noConfusion h
  · rename_i hlen3
    obtain ⟨hlen, hall⟩ := parseEntries_ok toNum args dss h
    refine ⟨by omega, hall, ?_⟩
    intro d hd
    unfold GameFlow.make at hd
    simp only [List.mem_map] at hd
    obtain ⟨config, hcm, hdc⟩ := hd
    subst hdc
    exact hall config hcm

/-- C10 witness: three comma-separated six-face arguments parse into
three dice of six faces each. -/
theorem parseDiceConfig_invariant_witness :
    parseDiceConfig (fun _ => some 0) ["a,a,a,a,a,a", "a,a,a,a,a,a", "a,a,a,a,a,a"] =
        Except.ok [[0, 0, 0, 0, 0, 0], [0, 0, 0, 0, 0, 0], [0, 0, 0, 0, 0, 0]] ∧
      3 ≤ ([[0, 0, 0, 0, 0, 0], [0, 0, 0, 0, 0, 0], [0, 0, 0, 0, 0, 0]] :
        List (List Int)).length ∧
      ∀ ds ∈ ([[0, 0, 0, 0, 0, 0], [0, 0, 0, 0, 0, 0], [0, 0, 0, 0, 0, 0]] :
        List (List Int)), ds.length = 6 :=
  ⟨rfl,
    (parseDiceConfig_invariant (fun _ => some 0)
      ["a,a,a,a,a,a", "a,a,a,a,a,a", "a,a,a,a,a,a"]
      [[0, 0, 0, 0, 0, 0], [0, 0, 0, 0, 0, 0], [0, 0, 0, 0, 0, 0]] rfl).1,
    (parseDiceConfig_invariant (fun _ => some 0)
      ["a,a,a,a,a,a", "a,a,a,a,a,a", "a,a,a,a,a,a"]
      [[0, 0, 0, 0, 0, 0], [0, 0, 0, 0, 0, 0], [0, 0, 0, 0, 0, 0]] rfl).2.1⟩

end Task3
